import Mathlib

/-!
Verification development for the nestjs_base backend service.

Each section embeds (shallowly) the data model and operations of one part of
the source tree, translated directly from the TypeScript source:
pure functions become Lean functions, stateful code becomes explicit state
passing, JavaScript numbers become `Int` (dates and times are integers:
calendar dates are day numbers since the Unix epoch, timestamps are
milliseconds since the Unix epoch), fallible code returns `Except`.
External dependencies (the JWT codec, bcrypt, SHA-256) are passed in as
function parameters, since the claims under study do not depend on their
internals.
-/

/-! ## Generic helpers: JavaScript truthiness and key/value stores -/

/-- JavaScript `x || d` for numbers: `0` is falsy. -/
def jsOrInt (x d : Int) : Int := if x = 0 then d else x

/-- JavaScript `s || d` for strings: the empty string is falsy. -/
def jsOrStr (s d : String) : String := if s = "" then d else s

/-- JavaScript truthiness of an optional string (absent or empty is falsy). -/
def jsTruthy (o : Option String) : Bool :=
  match o with
  | some s => s != ""
  | none => false

/-- JavaScript `String.prototype.includes`: substring containment. -/
def strIncludes (s sub : String) : Bool := decide (sub.toList <:+: s.toList)

/-- JavaScript `String.prototype.toLowerCase` (ASCII, which is all the code
compares): lower-case every character. -/
def strToLower (s : String) : String := String.mk (s.toList.map Char.toLower)

/-- JavaScript `String.prototype.trim`: strip whitespace from both ends. -/
def strTrim (s : String) : String :=
  String.mk
    (((s.toList.dropWhile Char.isWhitespace).reverse.dropWhile
        Char.isWhitespace).reverse)

/-- Lookup in a key/value store kept as an association list (first match). -/
def lookupAssoc {α : Type} (l : List (String × α)) (k : String) : Option α :=
  (l.find? (fun p => p.1 == k)).map Prod.snd

/-- Key membership in a key/value store. -/
def hasKey {α : Type} (l : List (String × α)) (k : String) : Bool :=
  l.any (fun p => p.1 == k)

/-- `Map.set` / Redis `SET`: replace the value at an existing key, else append. -/
def setAssoc {α : Type} (l : List (String × α)) (k : String) (v : α) :
    List (String × α) :=
  if hasKey l k then l.map (fun p => if p.1 == k then (k, v) else p)
  else l ++ [(k, v)]

/-- Number of entries stored under a key (a well-formed store has at most one). -/
def countKey {α : Type} (l : List (String × α)) (k : String) : Nat :=
  (l.filter (fun p => p.1 == k)).length

/-! ## Shared error type (share/app-error): message plus HTTP-style status. -/

/-- Structured application error: `AppError.from(new Error(msg), status)`. -/
structure AppErr where
  message : String
  status : Nat
deriving DecidableEq, Repr

/-! ## Calendar arithmetic for the partition job

JavaScript `Date`s at local midnight are modelled as day numbers since
1970-01-01; the conversions to and from civil dates follow the proleptic
Gregorian calendar.
-/

/-- `Date.prototype.getDay`: 0 = Sunday .. 6 = Saturday. 1970-01-01 was a
Thursday, hence the offset 4. -/
def dayOfWeekJS (d : Int) : Int := (d + 4).emod 7

/-- Day number since 1970-01-01 of the civil date `y-m-d`
(standard civil-from-days inverse, proleptic Gregorian). -/
def daysFromCivil (y m d : Int) : Int :=
  let y' := if m ≤ 2 then y - 1 else y
  let era := y'.fdiv 400
  let yoe := y' - era * 400
  let mp := (m + 9).emod 12
  let doy := (153 * mp + 2).fdiv 5 + d - 1
  let doe := yoe * 365 + yoe.fdiv 4 - yoe.fdiv 100 + doy
  era * 146097 + doe - 719468

/-- `Date.prototype.getFullYear` of a day number. -/
def yearOfDays (z : Int) : Int :=
  let z' := z + 719468
  let era := z'.fdiv 146097
  let doe := z' - era * 146097
  let yoe := (doe - doe.fdiv 1460 + doe.fdiv 36524 - doe.fdiv 146096).fdiv 365
  let y := yoe + era * 400
  let doy := doe - (365 * yoe + yoe.fdiv 4 - yoe.fdiv 100)
  let mp := (5 * doy + 2).fdiv 153
  if mp ≥ 10 then y + 1 else y

/-- JavaScript `Math.round (x / 7)` for an integer `x`:
round-half-up of the exact rational. -/
def jsRoundDiv7 (x : Int) : Int := (2 * x + 7).fdiv 14

/-- `PartitionJobService.getISOWeek`: Thursday-anchored ISO-8601 week number
of a date, translated line by line from the source. -/
def getISOWeek (date : Int) : Int :=
  let d := date + (3 - (dayOfWeekJS date + 6).emod 7)
  let week1 := daysFromCivil (yearOfDays d) 1 4
  1 + jsRoundDiv7 ((d - week1) - 3 + (dayOfWeekJS week1 + 6).emod 7)

/-- `PartitionJobService.getNextWeekStart`: next Monday strictly after today
(one day ahead on a Sunday, otherwise `8 - currentWeekday` days ahead). -/
def getNextWeekStart (today : Int) : Int :=
  let dayOfWeek := dayOfWeekJS today
  let daysUntilNextMonday := if dayOfWeek = 0 then 1 else 8 - dayOfWeek
  today + daysUntilNextMonday

/-- The partition name computed by `PartitionJobService.createNextWeekPartition`:
the calendar year (`getFullYear`) of the week start together with its ISO week
number. -/
def createPartitionName (nextWeekStart : Int) : String :=
  "attendances_" ++ toString (yearOfDays nextWeekStart) ++ "_w" ++
    toString (getISOWeek nextWeekStart)

/-! ## Token subsystem, attendance variant (modules/auth/token.service, single
token with SHA-256-keyed blacklist and a local lookup cache)

`Date.now()` timestamps and Redis expiry are in milliseconds; Redis entries
record the value and the absolute expiry instant (`SET key v EX ttl`), and
`EXISTS` reports a key only while it is unexpired. The SHA-256 hex digest is
an external primitive, passed in as `sha`.
-/

/-- One entry of the in-process blacklist-lookup cache. -/
structure LocalCacheEntry where
  isBlacklisted : Bool
  timestamp : Int
deriving DecidableEq, Repr

/-- One Redis entry: stored value and absolute expiry in milliseconds. -/
structure RedisEntry where
  value : String
  expiresAt : Int
deriving DecidableEq, Repr

/-- State touched by the attendance-variant `TokenService`: the local token
cache and the Redis store. -/
structure TokenSvcState where
  localTokenCache : List (String × LocalCacheEntry)
  redis : List (String × RedisEntry)
deriving DecidableEq, Repr

/-- `TokenService.getTokenKey`: blacklist key derived from the SHA-256 hex
digest of the token, never the raw token. -/
def getTokenKey (sha : String → String) (token : String) : String :=
  "token:blacklist:" ++ sha token

/-- `TokenService.cleanupLocalCache`: drop local-cache entries older than the
60-second local TTL. -/
def cleanupLocalCache (now : Int) (c : List (String × LocalCacheEntry)) :
    List (String × LocalCacheEntry) :=
  c.filter (fun p => ¬(now - p.2.timestamp > 60000))

/-- `TokenService.blacklistToken`: skip empty/blank tokens and nonpositive
remaining TTLs; otherwise record the marker in the local cache and in Redis
with the remaining TTL (seconds, hence `* 1000`). -/
def blacklistToken (sha : String → String) (now : Int) (token : String)
    (expiresIn : Int) (st : TokenSvcState) : TokenSvcState :=
  if token = "" ∨ strTrim token = "" then st
  else if expiresIn ≤ 0 then st
  else
    let blacklistKey := getTokenKey sha token
    { localTokenCache :=
        setAssoc st.localTokenCache blacklistKey ⟨true, now⟩,
      redis :=
        setAssoc st.redis blacklistKey ⟨"1", now + expiresIn * 1000⟩ }

/-- `TokenService.isTokenBlacklisted`: consult the local cache when fresh,
otherwise Redis `EXISTS`, updating the local cache (and opportunistically
pruning it once it exceeds 1000 entries). -/
def isTokenBlacklisted (sha : String → String) (now : Int) (token : String)
    (st : TokenSvcState) : Bool × TokenSvcState :=
  if token = "" then (false, st)
  else
    let blacklistKey := getTokenKey sha token
    let freshCached : Option Bool :=
      match lookupAssoc st.localTokenCache blacklistKey with
      | some cached =>
        if now - cached.timestamp < 60000 then some cached.isBlacklisted
        else none
      | none => none
    match freshCached with
    | some b => (b, st)
    | none =>
      let isB : Bool :=
        match lookupAssoc st.redis blacklistKey with
        | some e => now < e.expiresAt
        | none => false
      let cache1 := setAssoc st.localTokenCache blacklistKey ⟨isB, now⟩
      let cache2 :=
        if cache1.length > 1000 then cleanupLocalCache now cache1 else cache1
      (isB, { st with localTokenCache := cache2 })

/-! ## Token subsystem, access/refresh variant (src/modules/auth/token.service)

The blacklist key is the raw token; refresh tokens are persisted rows that can
be marked revoked. The JWT decoder is external, passed in as `decode`.
-/

/-- Claims recovered by `jwtService.decode` (unverified): optional expiry
(seconds since epoch) and optional `type` marker claim. -/
structure DecodedClaims where
  exp : Option Int
  type : Option String
deriving DecidableEq, Repr

/-- Persisted `RefreshToken` row. -/
structure RefreshTokenRow where
  token : String
  userId : String
  expiresAt : Int
  revoked : Bool
deriving DecidableEq, Repr

/-- State touched by the access/refresh-variant `TokenService`. -/
structure TokenDb where
  redis : List (String × RedisEntry)
  refreshTokens : List RefreshTokenRow
deriving DecidableEq, Repr

/-- The remaining TTL in seconds that `revokeToken` computes from the decoded
claims: `Math.max(0, Math.floor((exp * 1000 - now) / 1000))` when the claims
carry a truthy `exp`, else the 3600-second default (JavaScript treats
`exp = 0` as falsy, hence the extra branch). -/
def revokeExpirySeconds (decoded : Option DecodedClaims) (now : Int) : Int :=
  match decoded with
  | some d =>
    match d.exp with
    | some exp =>
      if exp = 0 then 3600 else max 0 ((exp * 1000 - now).fdiv 1000)
    | none => 3600
  | none => 3600

/-- `TokenService.revokeToken` (access/refresh variant): decode without
verification; write the blacklist marker keyed by the raw token with the
computed remaining TTL (3600 seconds by default); additionally mark persisted
refresh-token rows revoked when the decoded claims carry `type = "refresh"`.
All failures land in one surrounding try/catch that only logs, so the
embedding is a total function — but the catch also aborts the rest of the
body: when the computed TTL is 0 (a truthy `exp` already in the past), Redis
deterministically rejects `SET key v EX 0` as an invalid expire time, so
neither the marker nor the refresh-row update happens and the state is
returned unchanged. -/
def revokeToken (decode : String → Option DecodedClaims) (now : Int)
    (token : String) (db : TokenDb) : TokenDb :=
  let decoded := decode token
  let expiryInSeconds : Int := revokeExpirySeconds decoded now
  if expiryInSeconds ≤ 0 then db
  else
    let db1 : TokenDb :=
      { db with
        redis := setAssoc db.redis ("token:blacklist:" ++ token)
          ⟨"1", now + expiryInSeconds * 1000⟩ }
    match decoded with
    | some d =>
      if d.type == some "refresh" then
        { db1 with
          refreshTokens := db1.refreshTokens.map (fun rt =>
            if rt.token == token then { rt with revoked := true } else rt) }
      else db1
    | none => db1

/-! ## Authentication subsystem, SaaS variant (AuthService with email identity)

`bcrypt.hash` is external, passed in as `hash`; the random reset token is
passed in as `genToken` (crypto randomness is external). Prisma stores are
lists of rows; `findFirst` is the first row matching the filter.
-/

/-- SaaS `User` row (the fields touched by password reset). -/
structure SaasUser where
  id : String
  email : String
  name : String
  password : String
  resetToken : Option String
  resetTokenExpires : Option Int
deriving DecidableEq, Repr

/-- `Session` row (only the owner matters for revocation). -/
structure SessionRow where
  id : String
  userId : String
deriving DecidableEq, Repr

/-- The relational state touched by the SaaS `AuthService`. -/
structure AuthDb where
  users : List SaasUser
  sessions : List SessionRow
  refreshTokens : List RefreshTokenRow
deriving DecidableEq, Repr

/-- `TokenService.revokeAllUserTokens`: mark every unrevoked persisted refresh
token of the user revoked. -/
def revokeAllUserTokens (userId : String) (db : AuthDb) : AuthDb :=
  { db with
    refreshTokens := db.refreshTokens.map (fun rt =>
      if rt.userId == userId && rt.revoked == false then
        { rt with revoked := true }
      else rt) }

/-- `AuthService.revokeAllUserSessions`: delete every session row of the user,
then revoke all their tokens. -/
def revokeAllUserSessions (userId : String) (db : AuthDb) : AuthDb :=
  revokeAllUserTokens userId
    { db with sessions := db.sessions.filter (fun s => s.userId != userId) }

/-- `prisma.user.findFirst({ where: { resetToken, resetTokenExpires: { gt: now } } })`:
first user holding this reset token with an unexpired expiry (a null expiry
never satisfies `gt`). -/
def findUserByResetToken (token : String) (now : Int) (db : AuthDb) :
    Option SaasUser :=
  db.users.find? (fun u =>
    u.resetToken == some token &&
      match u.resetTokenExpires with
      | some e => now < e
      | none => false)

/-- `AuthService.resetPassword`: resolve the user by unexpired reset token
(else a 400 invalid/expired-token error), store the new hash, clear the reset
token and its expiry, and revoke all the user's sessions. -/
def resetPassword (hash : String → String) (token newPassword : String)
    (now : Int) (db : AuthDb) : Except AppErr AuthDb :=
  match findUserByResetToken token now db with
  | none => .error ⟨"Invalid or expired token", 400⟩
  | some user =>
    let hashed := hash newPassword
    let db1 : AuthDb :=
      { db with
        users := db.users.map (fun u =>
          if u.id == user.id then
            { u with
              password := hashed
              resetToken := none
              resetTokenExpires := none }
          else u) }
    .ok (revokeAllUserSessions user.id db1)

/-- `AuthService.requestPasswordReset` (SaaS): look the user up by email and
silently succeed when no account matches; otherwise persist a fresh reset
token with a one-hour expiry (and send the reset email, which carries no
state here). -/
def requestPasswordReset (genToken : String) (now : Int) (email : String)
    (db : AuthDb) : Except AppErr AuthDb :=
  match db.users.find? (fun u => u.email == email) with
  | none => .ok db
  | some user =>
    .ok { db with
      users := db.users.map (fun u =>
        if u.id == user.id then
          { u with
            resetToken := some genToken
            resetTokenExpires := some (now + 3600000) }
        else u) }

/-! ## Authentication subsystem, attendance variant (username identity, salted
hashes, reset token returned in the response)

The user repository's point lookups (`findByUsername`, `findByCardId`,
`findByResetToken`) are declared in the repository contract but their
implementation file is not part of the sources at hand. Modelled from the
spec: "point lookup by id/email/username/card-identifiers/reset-token"
(section 4.8) — each returns the first row whose corresponding field(s)
equal the argument. `bcrypt.compare` is external, passed in as `cmp`
(arguments: pre-hash input, stored hash); the freshly generated salt and
hash are passed in as `newSalt`/`newHash`. The `Err...` constants are
defined outside the sources at hand; modelled from the spec with their
names as messages (their statuses appear in the source).
-/

/-- Attendance-variant account status. -/
inductive UserStatus where
  | PENDING_ACTIVATION
  | ACTIVE
  | INACTIVE
  | BANNED
  | DELETED
deriving DecidableEq, Repr

/-- Attendance `User` row (the fields touched by password reset). -/
structure AttUser where
  id : String
  username : String
  cardId : String
  employeeId : String
  password : String
  salt : String
  passwordResetToken : Option String
  passwordResetExpiry : Option Int
  status : UserStatus
deriving DecidableEq, Repr

/-- `RequestPasswordResetDTO`. -/
structure AttResetRequestDto where
  username : Option String
  cardId : Option String
  employeeId : Option String
deriving DecidableEq, Repr

/-- `UserResetPasswordDTO`. -/
structure AttResetPasswordDto where
  resetToken : Option String
  username : Option String
  cardId : Option String
  employeeId : Option String
  password : String
deriving DecidableEq, Repr

/-- Modelled from the spec: repository point lookup by username. -/
def findByUsername (repo : List AttUser) (uname : String) : Option AttUser :=
  repo.find? (fun u => u.username == uname)

/-- Modelled from the spec: repository point lookup by card id and employee id. -/
def findByCardId (repo : List AttUser) (cid eid : String) : Option AttUser :=
  repo.find? (fun u => u.cardId == cid && u.employeeId == eid)

/-- Modelled from the spec: repository point lookup by password-reset token. -/
def findByResetToken (repo : List AttUser) (t : String) : Option AttUser :=
  repo.find? (fun u => u.passwordResetToken == some t)

/-- `AuthService.requestPasswordReset` (attendance): resolve the user by
username or by card id + employee id (400 when neither is supplied), fail
with 404 when no account matches, else persist a one-hour reset token and
return it in the response payload. -/
def attRequestPasswordReset (genToken : String) (now : Int)
    (dto : AttResetRequestDto) (repo : List AttUser) :
    Except AppErr (List AttUser × String × Int × String) :=
  let proceed : AttUser → Except AppErr (List AttUser × String × Int × String) :=
    fun user =>
      let expiryDate := now + 3600000
      let repo1 := repo.map (fun u =>
        if u.id == user.id then
          { u with
            passwordResetToken := some genToken
            passwordResetExpiry := some expiryDate }
        else u)
      .ok (repo1, genToken, expiryDate, user.username)
  if jsTruthy dto.username then
    match findByUsername repo (dto.username.getD "") with
    | none => .error ⟨"User not found", 404⟩
    | some user => proceed user
  else if jsTruthy dto.cardId && jsTruthy dto.employeeId then
    match findByCardId repo (dto.cardId.getD "") (dto.employeeId.getD "") with
    | none => .error ⟨"User not found", 404⟩
    | some user => proceed user
  else .error ⟨"ErrMissingResetCredentials", 400⟩

/-- `AuthService.resetPassword` (attendance): resolve the user by reset token
(400 when missing/expired), or by username or card id + employee id (404 when
not found, 400 when no credentials are given); reject reuse of the current
password (400); store the new salted hash, clear the reset token and its
expiry, and promote a pending account to active. -/
def attResetPassword (cmp : String → String → Bool) (newSalt newHash : String)
    (now : Int) (dto : AttResetPasswordDto) (repo : List AttUser) :
    Except AppErr (List AttUser) :=
  let finish : AttUser → Except AppErr (List AttUser) := fun user =>
    if cmp (dto.password ++ "." ++ user.salt) user.password then
      .error ⟨"ErrExistsPassword", 400⟩
    else
      .ok (repo.map (fun u =>
        if u.id == user.id then
          { u with
            password := newHash
            salt := newSalt
            passwordResetToken := none
            passwordResetExpiry := none
            status :=
              if u.status = UserStatus.PENDING_ACTIVATION then
                UserStatus.ACTIVE
              else u.status }
        else u))
  if jsTruthy dto.resetToken then
    match findByResetToken repo (dto.resetToken.getD "") with
    | none => .error ⟨"ErrInvalidResetToken", 400⟩
    | some user =>
      match user.passwordResetExpiry with
      | none => .error ⟨"ErrInvalidResetToken", 400⟩
      | some expiry =>
        if expiry < now then .error ⟨"ErrInvalidResetToken", 400⟩
        else finish user
  else if jsTruthy dto.username then
    match findByUsername repo (dto.username.getD "") with
    | none => .error ⟨"User not found", 404⟩
    | some user => finish user
  else if jsTruthy dto.cardId && jsTruthy dto.employeeId then
    match findByCardId repo (dto.cardId.getD "") (dto.employeeId.getD "") with
    | none => .error ⟨"User not found", 404⟩
    | some user => finish user
  else .error ⟨"ErrMissingResetCredentials", 400⟩

/-! ## Redis error interceptor (RedisErrorInterceptor) -/

/-- A JavaScript error as the interceptor sees it. -/
structure JsError where
  name : String
  message : String
  stack : String
deriving DecidableEq, Repr

/-- Outcome of the interceptor's catch handler: a substituted response body
or a thrown HTTP exception. -/
inductive HandlerResponse where
  | respList (data : List String) (total : Int) (message : String)
  | respCount (count : Int) (message : String)
  | respCheck (valid : Bool) (message : String)
  | respDefault (success : Bool) (message : String)
  | respError (status : Nat) (message : String)
deriving DecidableEq, Repr

/-- The message signatures the interceptor treats as cache-origin. -/
def redisErrorMessages : List String :=
  ["ECONNREFUSED", "Connection is closed", "connect ETIMEDOUT",
   "failed to connect", "Redis connection", "redis server", "Redis", "redis"]

/-- The authentication-sensitive path fragments. -/
def criticalPaths : List String :=
  ["/auth/", "/login", "/profile", "/token", "/session"]

/-- `RedisErrorInterceptor.isRedisError`: error-name checks, then message or
stack pattern matching against the known cache-failure signatures. -/
def isRedisError (e : JsError) : Bool :=
  if e.name == "ReplyError" then true
  else if e.name == "AbortError" && strIncludes e.message "redis" then true
  else if e.name == "MaxRetriesPerRequestError" then true
  else
    redisErrorMessages.any (fun msg =>
      strIncludes e.message msg || strIncludes e.stack msg)

/-- `RedisErrorInterceptor.handleRedisError`: 503 for authentication-sensitive
paths, otherwise a safe fallback body chosen from the path shape. -/
def handleRedisError (path : String) : HandlerResponse :=
  if criticalPaths.any (fun criticalPath => strIncludes path criticalPath) then
    .respError 503 "Service temporarily unavailable, please try again later"
  else if strIncludes path "/search" || strIncludes path "/list" then
    .respList [] 0 "Cache unavailable"
  else if strIncludes path "/count" then
    .respCount 0 "Cache unavailable"
  else if strIncludes path "/check" || strIncludes path "/validate" then
    .respCheck false "Cache unavailable"
  else
    .respDefault false "Cache unavailable"

/-- `RedisErrorInterceptor.intercept`'s catch branch: handle cache-origin
errors, rethrow everything else for the global filters. -/
def interceptCatch (e : JsError) (path : String) : HandlerResponse ⊕ JsError :=
  if isRedisError e then .inl (handleRedisError path) else .inr e

/-! ## Generic CRUD scaffold: roles, ownership permission check, pagination -/

/-- SaaS role enum (share / auth.types). -/
inductive UserRole where
  | USER
  | ADMIN
  | SUPER_ADMIN
deriving DecidableEq, Repr

/-- The authenticated caller attached to a request. -/
structure Requester where
  sub : String
  role : Option UserRole
deriving DecidableEq, Repr

/-- CRUD actions used by the permission check. -/
inductive CrudAction where
  | create
  | read
  | update
  | delete
deriving DecidableEq, Repr

/-- Endpoint types of the CRUD controller configuration. -/
inductive CrudEndpointType where
  | getAll
  | getOne
  | create
  | update
  | delete
  | count
deriving DecidableEq, Repr

/-- Per-endpoint configuration (the allow-list consulted by the check). -/
structure EndpointCfg where
  roles : Option (List UserRole)
deriving DecidableEq, Repr

/-- An entity as the ownership check sees it: the three recognised ownership
fields, each possibly absent. -/
structure OwnedEntity where
  createdBy : Option String
  ownerId : Option String
  userId : Option String
deriving DecidableEq, Repr

/-- `BaseCrudService.isEntityOwner`: the caller owns the entity when any of
`createdBy` / `ownerId` / `userId` is present and equals the caller id. -/
def isEntityOwner (e : OwnedEntity) (r : Requester) : Bool :=
  e.createdBy == some r.sub || e.ownerId == some r.sub || e.userId == some r.sub

/-- `BaseCrudService.mapActionToEndpoint`. -/
def mapActionToEndpoint : CrudAction → CrudEndpointType
  | .create => .create
  | .read => .getAll
  | .update => .update
  | .delete => .delete

/-- The role-based block of `BaseCrudService.checkPermission`: when CRUD
options configure an allow-list for the action's endpoint and it excludes the
caller's role, throw 403. -/
def roleCheckOf (opts : Option (CrudEndpointType → Option EndpointCfg))
    (action : CrudAction) (role : UserRole) : Except AppErr Unit :=
  match opts with
  | some endpoints =>
    match endpoints (mapActionToEndpoint action) with
    | some endpointConfig =>
      match endpointConfig.roles with
      | some roles =>
        if roles.contains role then .ok ()
        else .error ⟨"Permission denied: role not allowed", 403⟩
      | none => .ok ()
    | none => .ok ()
  | none => .ok ()

/-- The ownership block of `BaseCrudService.checkPermission`: for update or
delete with a (truthy) entity id, the entity must exist (404) and, when the
service is ownership-aware, belong to the caller (403). -/
def ownershipCheckOf (hasOwnership : Bool)
    (repoGet : String → Option OwnedEntity) (requester : Requester)
    (action : CrudAction) (entityId : Option String) : Except AppErr Unit :=
  if (entityId.getD "") ≠ "" ∧ (action = .update ∨ action = .delete) then
    match repoGet (entityId.getD "") with
    | none => .error ⟨"Entity not found", 404⟩
    | some entity =>
      if hasOwnership ∧ isEntityOwner entity requester = false then
        .error ⟨"Permission denied: User does not own this entity", 403⟩
      else .ok ()
  else .ok ()

/-- `BaseCrudService.checkPermission`: admins and super-admins always pass;
otherwise the configured per-endpoint allow-list is enforced, then the
ownership check runs. -/
def checkPermission (opts : Option (CrudEndpointType → Option EndpointCfg))
    (hasOwnership : Bool) (repoGet : String → Option OwnedEntity)
    (requester : Requester) (action : CrudAction) (entityId : Option String) :
    Except AppErr Unit :=
  let role := requester.role.getD UserRole.USER
  if role = UserRole.SUPER_ADMIN ∨ role = UserRole.ADMIN then .ok ()
  else
    match roleCheckOf opts action role with
    | .error e => .error e
    | .ok _ => ownershipCheckOf hasOwnership repoGet requester action entityId

/-- `BaseCrudController.list`'s sort-order validation: keep a value that is
case-insensitively asc/desc (lower-cased), else default to desc. -/
def validOrder (sortOrder : String) : String :=
  if sortOrder ≠ "" ∧ strToLower sortOrder ∈ ["asc", "desc"] then
    strToLower sortOrder
  else "desc"

/-- `BasePrismaRepository.list`'s effective page: `Math.max(1, page || 1)`. -/
def listPage (page : Int) : Int := max 1 (jsOrInt page 1)

/-- `BasePrismaRepository.list`'s effective limit:
`Math.min(100, Math.max(1, limit || 10))`. -/
def listLimit (limit : Int) : Int := min 100 (max 1 (jsOrInt limit 10))

/-- The effective sort order of a list request: the controller's validated
order, then the repository's `sortOrder || "desc"` default. -/
def listSortOrder (sortOrder : String) : String :=
  jsOrStr (validOrder sortOrder) "desc"

/-! ## Notification subsystem (NotificationService over the notification
table; `uuidv4()` is external, passed in as `fresh`). -/

/-- Persisted `Notification` row. -/
structure NotifRow where
  id : String
  userId : String
  title : String
  content : String
  ntype : String
  data : String
  isRead : Bool
deriving DecidableEq, Repr

/-- An incoming `notification:created` event payload. -/
structure NotifIn where
  id : String
  userId : String
  title : String
  content : String
  ntype : String
  data : String
deriving DecidableEq, Repr

/-- `NotificationService.markAsRead`: `updateMany` scoped to the pair
(notification id, owning user id); always reports success. -/
def markAsRead (userId notificationId : String) (store : List NotifRow) :
    List NotifRow × Bool :=
  (store.map (fun n =>
    if n.id == notificationId && n.userId == userId then
      { n with isRead := true }
    else n), true)

/-- `NotificationService.deleteNotification`: `deleteMany` scoped to the pair
(notification id, owning user id); always reports success. -/
def deleteNotification (userId notificationId : String)
    (store : List NotifRow) : List NotifRow × Bool :=
  (store.filter (fun n => !(n.id == notificationId && n.userId == userId)),
   true)

/-- `NotificationService.processNotification`: no-op when a row with the
event's id already exists, else persist the row (generating an id only when
the event carries none). -/
def processNotification (fresh : String) (n : NotifIn)
    (store : List NotifRow) : List NotifRow :=
  match store.find? (fun r => r.id == n.id) with
  | some _ => store
  | none =>
    store ++ [{ id := jsOrStr n.id fresh
                userId := n.userId
                title := n.title
                content := n.content
                ntype := n.ntype
                data := jsOrStr n.data "{}"
                isRead := false }]

/-- Number of persisted notification rows carrying a given id. -/
def countNotifId (store : List NotifRow) (i : String) : Nat :=
  (store.filter (fun r => r.id == i)).length

/-! ## Lemmas about the key/value store model -/

theorem find?_map_set {α : Type} (k : String) (v : α) :
    ∀ l : List (String × α), l.any (fun p => p.1 == k) = true →
      (l.map (fun p => if p.1 == k then (k, v) else p)).find?
          (fun p => p.1 == k) = some (k, v) := by
  intro l
  induction l with
  | nil => simp
  | cons hd tl ih =>
    intro hany
    by_cases hk : hd.1 = k
    · have hhead : (if (hd.1 == k) = true then (k, v) else hd) = (k, v) := by
        simp [hk]
      rw [List.map_cons, hhead, List.find?_cons_of_pos _ (by simp)]
    · have hbeq : (hd.1 == k) = false := by simp [hk]
      have htl : tl.any (fun p => p.1 == k) = true := by
        simpa [List.any_cons, hbeq] using hany
      have hhead : (if (hd.1 == k) = true then (k, v) else hd) = hd := by
        simp [hbeq]
      rw [List.map_cons, hhead, List.find?_cons_of_neg _ (by simp [hbeq])]
      exact ih htl

theorem lookupAssoc_setAssoc_self {α : Type} (l : List (String × α))
    (k : String) (v : α) : lookupAssoc (setAssoc l k v) k = some v := by
  unfold setAssoc hasKey lookupAssoc
  by_cases h : l.any (fun p => p.1 == k) = true
  · simp only [h, if_true, find?_map_set k v l h, Option.map_some']
  · have h' : l.any (fun p => p.1 == k) = false := by
      cases hx : l.any (fun p => p.1 == k) with
      | true => exact absurd hx h
      | false => rfl
    have hnone : l.find? (fun p => p.1 == k) = none := by
      refine List.find?_eq_none.mpr ?_
      intro x hx
      have := (List.any_eq_false (p := fun p => p.1 == k) (l := l)).mp h' x hx
      simpa using this
    simp only [h', Bool.false_eq_true, if_false, List.find?_append, hnone,
      Option.none_or, List.find?]
    simp

theorem keysNodup_setAssoc {α : Type} (l : List (String × α)) (k : String)
    (v : α) (h : (l.map Prod.fst).Nodup) :
    ((setAssoc l k v).map Prod.fst).Nodup := by
  unfold setAssoc hasKey
  by_cases hany : l.any (fun p => p.1 == k) = true
  · have hkeys : (l.map (fun p => if p.1 == k then (k, v) else p)).map Prod.fst
        = l.map Prod.fst := by
      rw [List.map_map]
      refine List.map_congr_left ?_
      intro p _
      by_cases hp : p.1 = k
      · simp [hp]
      · simp [hp]
    simp only [hany, if_true, hkeys]
    exact h
  · have h' : l.any (fun p => p.1 == k) = false := by
      cases hx : l.any (fun p => p.1 == k) with
      | true => exact absurd hx hany
      | false => rfl
    have hnotin : k ∉ l.map Prod.fst := by
      intro hmem
      rcases List.mem_map.mp hmem with ⟨p, hp, hfst⟩
      have := (List.any_eq_false (p := fun p => p.1 == k) (l := l)).mp h' p hp
      simp [hfst] at this
    simp only [hany, Bool.false_eq_true, if_false, List.map_append,
      List.map_cons, List.map_nil]
    rw [List.nodup_append]
    refine ⟨h, List.nodup_singleton k, ?_⟩
    intro a ha hb
    simp only [List.mem_singleton] at hb
    subst hb
    exact hnotin ha

theorem countKey_le_one {α : Type} (l : List (String × α)) (k : String)
    (h : (l.map Prod.fst).Nodup) : countKey l k ≤ 1 := by
  induction l with
  | nil => simp [countKey]
  | cons hd tl ih =>
    have hhd : hd.1 ∉ tl.map Prod.fst :=
      (List.nodup_cons.mp (by simpa using h)).1
    have htl : (tl.map Prod.fst).Nodup :=
      (List.nodup_cons.mp (by simpa using h)).2
    by_cases hk : hd.1 = k
    · have hfil : tl.filter (fun p => p.1 == k) = [] := by
        refine List.filter_eq_nil_iff.mpr ?_
        intro p hp hpk
        have hpk' : p.1 = k := by simpa using hpk
        exact hhd (by
          rw [hk, ← hpk']
          exact List.mem_map_of_mem Prod.fst hp)
      simp [countKey, List.filter_cons, hk, hfil]
    · have hbeq : (hd.1 == k) = false := by simp [hk]
      have := ih htl
      simpa [countKey, List.filter_cons, hbeq] using this

theorem one_le_countKey {α : Type} (l : List (String × α)) (k : String)
    (hany : hasKey l k = true) : 1 ≤ countKey l k := by
  unfold hasKey at hany
  rcases List.any_eq_true.mp hany with ⟨p, hp, hpk⟩
  have hmem : p ∈ l.filter (fun p => p.1 == k) :=
    List.mem_filter.mpr ⟨hp, hpk⟩
  exact List.length_pos_of_mem hmem

theorem countKey_setAssoc_self {α : Type} (l : List (String × α)) (k : String)
    (v : α) (h : (l.map Prod.fst).Nodup) :
    countKey (setAssoc l k v) k = 1 := by
  unfold setAssoc
  by_cases hany : hasKey l k = true
  · rw [if_pos hany]
    have hmapfilter :
        (l.map (fun p => if p.1 == k then (k, v) else p)).filter
            (fun p => p.1 == k)
          = ((l.filter (fun p => p.1 == k)).map
              (fun p => if p.1 == k then (k, v) else p)) := by
      rw [List.filter_map]
      congr 1
      refine List.filter_congr ?_
      intro p _
      by_cases hp : p.1 = k
      · simp [hp]
      · simp [hp]
    have hle : countKey l k ≤ 1 := countKey_le_one l k h
    have hge : 1 ≤ countKey l k := one_le_countKey l k hany
    unfold countKey at *
    rw [hmapfilter, List.length_map]
    omega
  · rw [if_neg hany]
    have h' : l.any (fun p => p.1 == k) = false := by
      cases hx : l.any (fun p => p.1 == k) with
      | true => exact absurd hx hany
      | false => rfl
    have hfil : l.filter (fun p => p.1 == k) = [] := by
      refine List.filter_eq_nil_iff.mpr ?_
      intro p hp hpk
      have := (List.any_eq_false (p := fun p => p.1 == k) (l := l)).mp h' p hp
      exact this hpk
    simp [countKey, List.filter_append, hfil, List.filter_cons]

/-! ## Claim theorems -/

/-- C1: for the week starting Monday 2024-12-30 the partition-creation job is
claimed to compute `attendances_2025_w1` (ISO week-year). Evaluating the
embedded source at that week start: the ISO week number is indeed 1, but the
year component is `getFullYear` of the week start, i.e. 2024, so the code
produces `attendances_2024_w1` and not the claimed `attendances_2025_w1`. -/
theorem C1_partition_name_week_2024_12_30 :
    getNextWeekStart (daysFromCivil 2024 12 27) = daysFromCivil 2024 12 30 ∧
    dayOfWeekJS (daysFromCivil 2024 12 30) = 1 ∧
    getISOWeek (daysFromCivil 2024 12 30) = 1 ∧
    createPartitionName (daysFromCivil 2024 12 30) = "attendances_2024_w1" ∧
    createPartitionName (daysFromCivil 2024 12 30) ≠ "attendances_2025_w1" := by
  refine ⟨by decide, by decide, by decide, by decide, by decide⟩

/-- C4 counterexample: the attendance-variant password-reset request, run
against a store with no matching account, fails with a 404 "User not found"
error — it does signal that no account matched, so the claim as stated is
false on this variant. -/
theorem C4_counterexample :
    attRequestPasswordReset "t" 0 ⟨some "ghost", none, none⟩ []
      = .error ⟨"User not found", 404⟩ := rfl

/-- C4 (amended): the email-based (SaaS) password-reset request returns a
success-shaped response for every store and every email, whether or not an
account matches. -/
theorem C4_saas_request_always_success (genToken : String) (now : Int)
    (email : String) (db : AuthDb) :
    ∃ db', requestPasswordReset genToken now email db = .ok db' := by
  unfold requestPasswordReset
  cases h : db.users.find? (fun u => u.email == email) with
  | none => exact ⟨db, rfl⟩
  | some user => exact ⟨_, rfl⟩

/-- C5: when the interceptor classifies an error as cache-origin, a request
whose path matches one of the authentication-sensitive fragments is answered
with a thrown 503, while a non-critical list/search path is answered with a
success body carrying an empty result set. -/
theorem C5_cache_outage_degradation (e : JsError) (path : String)
    (hE : isRedisError e = true) :
    (criticalPaths.any (fun criticalPath => strIncludes path criticalPath)
        = true →
      interceptCatch e path = .inl (.respError 503
        "Service temporarily unavailable, please try again later")) ∧
    (criticalPaths.any (fun criticalPath => strIncludes path criticalPath)
        = false →
      (strIncludes path "/search" || strIncludes path "/list") = true →
      interceptCatch e path = .inl (.respList [] 0 "Cache unavailable")) := by
  constructor
  · intro hcrit
    unfold interceptCatch handleRedisError
    rw [if_pos hE, if_pos hcrit]
  · intro hcrit hlist
    unfold interceptCatch handleRedisError
    rw [if_pos hE, if_neg (by simp [hcrit]), if_pos hlist]

/-- C5 witness: a concrete Redis failure on a login path yields the 503, and
on a list path yields the empty-result success body. -/
theorem C5_witness :
    interceptCatch ⟨"MaxRetriesPerRequestError", "", ""⟩ "/auth/login"
      = .inl (.respError 503
        "Service temporarily unavailable, please try again later") ∧
    interceptCatch ⟨"MaxRetriesPerRequestError", "", ""⟩ "/items/list"
      = .inl (.respList [] 0 "Cache unavailable") :=
  ⟨(C5_cache_outage_degradation ⟨"MaxRetriesPerRequestError", "", ""⟩
      "/auth/login" (by decide)).1 (by decide),
   (C5_cache_outage_degradation ⟨"MaxRetriesPerRequestError", "", ""⟩
      "/items/list" (by decide)).2 (by decide) (by decide)⟩

/-- C6: list-request pagination is normalized — page 0 becomes 1, limit 500
is clamped to 100, the effective limit always lies in [1, 100], the effective
page is at least 1, and a sort order that is not case-insensitively asc/desc
becomes desc. -/
theorem C6_pagination_normalized (page limit : Int) (sortOrder : String) :
    listPage 0 = 1 ∧ listLimit 500 = 100 ∧ listSortOrder "BOGUS" = "desc" ∧
    1 ≤ listPage page ∧ 1 ≤ listLimit limit ∧ listLimit limit ≤ 100 ∧
    (strToLower sortOrder ≠ "asc" → strToLower sortOrder ≠ "desc" →
      listSortOrder sortOrder = "desc") := by
  refine ⟨by decide, by decide, by decide, ?_, ?_, ?_, ?_⟩
  · exact le_max_left 1 (jsOrInt page 1)
  · exact le_min (by norm_num) (le_max_left 1 (jsOrInt limit 10))
  · exact min_le_left 100 (max 1 (jsOrInt limit 10))
  · intro h1 h2
    unfold listSortOrder validOrder jsOrStr
    have hcond : ¬(sortOrder ≠ "" ∧ strToLower sortOrder ∈ ["asc", "desc"]) := by
      rintro ⟨-, hmem⟩
      rcases List.mem_cons.mp hmem with h | h
      · exact h1 h
      · exact h2 (List.mem_singleton.mp h)
    rw [if_neg hcond, if_neg (by decide : ¬("desc" : String) = "")]

/-- C6 witness: the concrete request page 0, limit 500, sortOrder BOGUS is
normalized to page 1, limit 100, order desc. -/
theorem C6_pagination_normalized_witness :
    listPage 0 = 1 ∧ listLimit 500 = 100 ∧ listSortOrder "BOGUS" = "desc" :=
  ⟨(C6_pagination_normalized 0 500 "BOGUS").1,
   (C6_pagination_normalized 0 500 "BOGUS").2.1,
   (C6_pagination_normalized 0 500 "BOGUS").2.2.2.2.2.2 (by decide) (by decide)⟩

/-- C9: when no notification row has the given id and owner, markAsRead and
deleteNotification both report success and leave the store unchanged — in
particular a notification belonging to a different user is never modified or
deleted. -/
theorem C9_foreign_notification_untouched (u nid : String)
    (store : List NotifRow)
    (h : ∀ r ∈ store, ¬(r.id = nid ∧ r.userId = u)) :
    markAsRead u nid store = (store, true) ∧
    deleteNotification u nid store = (store, true) := by
  have hpred : ∀ r ∈ store, (r.id == nid && r.userId == u) = false := by
    intro r hr
    by_cases h1 : r.id = nid
    · by_cases h2 : r.userId = u
      · exact absurd ⟨h1, h2⟩ (h r hr)
      · simp [h1, h2]
    · simp [h1]
  constructor
  · have hmap : store.map (fun n =>
        if n.id == nid && n.userId == u then { n with isRead := true }
        else n) = store := by
      have := List.map_congr_left (l := store)
        (f := fun n => if n.id == nid && n.userId == u then
          { n with isRead := true } else n) (g := id) ?_
      · simpa using this
      · intro n hn
        simp [hpred n hn]
    unfold markAsRead
    rw [hmap]
  · have hfil : store.filter (fun n =>
        !(n.id == nid && n.userId == u)) = store := by
      refine List.filter_eq_self.mpr ?_
      intro n hn
      simp [hpred n hn]
    unfold deleteNotification
    rw [hfil]

/-- C9 witness: a store holding one notification of another user is untouched
by markAsRead and deleteNotification for an id/owner pair that matches no
row. -/
theorem C9_foreign_notification_untouched_witness :
    markAsRead "alice" "n1" [⟨"n1", "bob", "t", "c", "SYSTEM", "{}", false⟩]
      = ([⟨"n1", "bob", "t", "c", "SYSTEM", "{}", false⟩], true) ∧
    deleteNotification "alice" "n1"
        [⟨"n1", "bob", "t", "c", "SYSTEM", "{}", false⟩]
      = ([⟨"n1", "bob", "t", "c", "SYSTEM", "{}", false⟩], true) :=
  C9_foreign_notification_untouched "alice" "n1"
    [⟨"n1", "bob", "t", "c", "SYSTEM", "{}", false⟩] (by decide)

/-- C8: processing the same notification-created event twice persists exactly
one row — the second invocation finds the existing row by id and leaves the
store unchanged, and a first invocation on a store without the id persists
exactly one row with that id. -/
theorem C8_process_notification_idempotent (fresh1 fresh2 : String)
    (n : NotifIn) (store : List NotifRow) (hId : n.id ≠ "") :
    processNotification fresh2 n (processNotification fresh1 n store)
        = processNotification fresh1 n store ∧
    (countNotifId store n.id = 0 →
      countNotifId (processNotification fresh1 n store) n.id = 1) := by
  cases hfind : store.find? (fun r => r.id == n.id) with
  | some r =>
    have h1 : processNotification fresh1 n store = store := by
      unfold processNotification
      rw [hfind]
    constructor
    · rw [h1]
      unfold processNotification
      rw [hfind]
    · intro h0
      exfalso
      have hrmem := List.mem_of_find?_eq_some hfind
      have hrpred := List.find?_some hfind
      have hmem : r ∈ store.filter (fun r => r.id == n.id) :=
        List.mem_filter.mpr ⟨hrmem, hrpred⟩
      have hpos := List.length_pos_of_mem hmem
      unfold countNotifId at h0
      omega
  | none =>
    have hrowid : jsOrStr n.id fresh1 = n.id := by
      unfold jsOrStr
      rw [if_neg hId]
    have h1 : processNotification fresh1 n store
        = store ++ [{ id := jsOrStr n.id fresh1
                      userId := n.userId
                      title := n.title
                      content := n.content
                      ntype := n.ntype
                      data := jsOrStr n.data "{}"
                      isRead := false }] := by
      unfold processNotification
      rw [hfind]
    constructor
    · rw [h1]
      unfold processNotification
      rw [List.find?_append, hfind]
      simp [List.find?, hrowid]
    · intro h0
      unfold countNotifId at *
      rw [h1, List.filter_append]
      have hfil : store.filter (fun r => r.id == n.id) = [] :=
        List.length_eq_zero.mp h0
      rw [hfil]
      simp [hrowid]

/-- C8 witness: the same concrete event processed twice against an empty
store persists exactly one row and the second run is a no-op. -/
theorem C8_process_notification_idempotent_witness :
    processNotification "f2" ⟨"n1", "u1", "t", "c", "SYSTEM", "{}"⟩
        (processNotification "f1" ⟨"n1", "u1", "t", "c", "SYSTEM", "{}"⟩ [])
      = processNotification "f1" ⟨"n1", "u1", "t", "c", "SYSTEM", "{}"⟩ [] ∧
    countNotifId
        (processNotification "f1" ⟨"n1", "u1", "t", "c", "SYSTEM", "{}"⟩ [])
        "n1" = 1 :=
  ⟨(C8_process_notification_idempotent "f1" "f2"
      ⟨"n1", "u1", "t", "c", "SYSTEM", "{}"⟩ [] (by decide)).1,
   (C8_process_notification_idempotent "f1" "f2"
      ⟨"n1", "u1", "t", "c", "SYSTEM", "{}"⟩ [] (by decide)).2 (by decide)⟩

/-- C10 counterexample: a token decoding with `type = "refresh"` whose `exp`
(second 1) is already past at `now` = 100000 ms computes a remaining TTL of
0, so the Redis `SET ... EX 0` fails into the catch before the `updateMany`
runs: the persisted refresh-token row for the token keeps `revoked = false`
(and no marker is written), refuting the claim's unconditional revocation. -/
theorem C10_counterexample :
    revokeToken (fun _ => some ⟨some 1, some "refresh"⟩) 100000 "rtok"
        ⟨[], [⟨"rtok", "u1", 1000, false⟩]⟩
      = ⟨[], [⟨"rtok", "u1", 1000, false⟩]⟩ := rfl

/-- C10 (amended): revokeToken (a total function here, mirroring the
swallowed errors of the source) writes a blacklist marker keyed by the raw
token with the default TTL of 3600 seconds whenever the token does not
decode or decodes without an exp claim; it marks every persisted
refresh-token row holding the token revoked when the decoded claims carry
type refresh and the computed remaining TTL is positive; and when the
computed remaining TTL is 0 the failed `SET ... EX 0` aborts the body, so
nothing at all is written. -/
theorem C10_revoke_token_behaviour (decode : String → Option DecodedClaims)
    (now : Int) (token : String) (db : TokenDb) :
    ((decode token = none ∨ ∃ d, decode token = some d ∧ d.exp = none) →
      lookupAssoc (revokeToken decode now token db).redis
          ("token:blacklist:" ++ token) = some ⟨"1", now + 3600 * 1000⟩) ∧
    (∀ d, decode token = some d → d.type = some "refresh" →
      0 < revokeExpirySeconds (decode token) now →
      ∀ rt ∈ (revokeToken decode now token db).refreshTokens,
        rt.token = token → rt.revoked = true) ∧
    (revokeExpirySeconds (decode token) now ≤ 0 →
      revokeToken decode now token db = db) := by
  refine ⟨?_, ?_, ?_⟩
  · rintro (hdec | ⟨d, hdec, hexp⟩)
    · unfold revokeToken
      simp only [hdec]
      rw [if_neg (by simp [revokeExpirySeconds] :
        ¬ revokeExpirySeconds none now ≤ 0)]
      exact lookupAssoc_setAssoc_self _ _ _
    · unfold revokeToken
      simp only [hdec]
      rw [show revokeExpirySeconds (some d) now = 3600 from by
        simp [revokeExpirySeconds, hexp]]
      rw [if_neg (by norm_num : ¬ (3600 : Int) ≤ 0)]
      by_cases ht : (d.type == some "refresh") = true
      · rw [if_pos ht]
        exact lookupAssoc_setAssoc_self _ _ _
      · rw [if_neg ht]
        exact lookupAssoc_setAssoc_self _ _ _
  · intro d hdec htype httl rt hrt hrttok
    rw [hdec] at httl
    unfold revokeToken at hrt
    simp only [hdec] at hrt
    rw [if_neg (by omega : ¬ revokeExpirySeconds (some d) now ≤ 0)] at hrt
    rw [if_pos (by simp [htype] : (d.type == some "refresh") = true)] at hrt
    rcases List.mem_map.mp hrt with ⟨rt0, hrt0, hf⟩
    by_cases h0 : (rt0.token == token) = true
    · rw [if_pos h0] at hf
      rw [← hf]
    · rw [if_neg h0] at hf
      exfalso
      apply h0
      rw [hf, hrttok]
      simp
  · intro httl
    unfold revokeToken
    simp only []
    rw [if_pos httl]

/-- C10 witness: a token that does not decode still gets a raw-keyed marker
with TTL 3600 seconds; a decoded refresh token with ten seconds left gets its
persisted row revoked; and an already-expired decoded token leaves the state
untouched. -/
theorem C10_revoke_token_behaviour_witness :
    lookupAssoc (revokeToken (fun _ => none) 0 "garbage"
        ⟨[], []⟩).redis "token:blacklist:garbage" = some ⟨"1", 3600000⟩ ∧
    (∀ rt ∈ (revokeToken (fun _ => some ⟨some 10, some "refresh"⟩) 0 "rtok"
        ⟨[], [⟨"rtok", "u1", 10000, false⟩]⟩).refreshTokens,
      rt.token = "rtok" → rt.revoked = true) ∧
    revokeToken (fun _ => some ⟨some 1, some "refresh"⟩) 100000 "old"
        ⟨[], []⟩ = ⟨[], []⟩ :=
  ⟨(C10_revoke_token_behaviour (fun _ => none) 0 "garbage" ⟨[], []⟩).1
      (Or.inl rfl),
   (C10_revoke_token_behaviour (fun _ => some ⟨some 10, some "refresh"⟩) 0
      "rtok" ⟨[], [⟨"rtok", "u1", 10000, false⟩]⟩).2.1
      ⟨some 10, some "refresh"⟩ rfl rfl (by decide),
   (C10_revoke_token_behaviour (fun _ => some ⟨some 1, some "refresh"⟩)
      100000 "old" ⟨[], []⟩).2.2 (by decide)⟩

/-- C2: for a nonblank token with positive remaining TTL, blacklisting twice
in succession leaves exactly one marker under the token's key in the Redis
store (given a well-formed store, i.e. distinct keys) and isTokenBlacklisted
reports true after each call; and for any nonpositive remaining TTL,
blacklistToken writes nothing at all. -/
theorem C2_blacklist_twice_idempotent (sha : String → String)
    (now expiresIn : Int) (token : String) (st : TokenSvcState)
    (hTok : token ≠ "") (hTrim : strTrim token ≠ "") (hTtl : 0 < expiresIn)
    (hKeys : (st.redis.map Prod.fst).Nodup) :
    (isTokenBlacklisted sha now token
        (blacklistToken sha now token expiresIn st)).1 = true ∧
    (isTokenBlacklisted sha now token
        (blacklistToken sha now token expiresIn
          (isTokenBlacklisted sha now token
            (blacklistToken sha now token expiresIn st)).2)).1 = true ∧
    countKey
      (isTokenBlacklisted sha now token
        (blacklistToken sha now token expiresIn
          (isTokenBlacklisted sha now token
            (blacklistToken sha now token expiresIn st)).2)).2.redis
      (getTokenKey sha token) = 1 ∧
    (∀ (t : String) (e : Int) (s : TokenSvcState), e ≤ 0 →
      blacklistToken sha now t e s = s) := by
  have hguard : ¬(token = "" ∨ strTrim token = "") := by
    rintro (h | h)
    · exact hTok h
    · exact hTrim h
  have hbl : ∀ s : TokenSvcState, blacklistToken sha now token expiresIn s
      = { localTokenCache :=
            setAssoc s.localTokenCache (getTokenKey sha token) ⟨true, now⟩,
          redis := setAssoc s.redis (getTokenKey sha token)
            ⟨"1", now + expiresIn * 1000⟩ } := by
    intro s
    unfold blacklistToken
    rw [if_neg hguard, if_neg (by omega : ¬ expiresIn ≤ 0)]
  have hchk : ∀ s : TokenSvcState,
      lookupAssoc s.localTokenCache (getTokenKey sha token)
          = some ⟨true, now⟩ →
      isTokenBlacklisted sha now token s = (true, s) := by
    intro s hl
    unfold isTokenBlacklisted
    rw [if_neg hTok]
    simp only [hl]
    rw [if_pos (by omega : now - now < (60000 : Int))]
  have hl1 : lookupAssoc
      (blacklistToken sha now token expiresIn st).localTokenCache
      (getTokenKey sha token) = some ⟨true, now⟩ := by
    rw [hbl st]
    exact lookupAssoc_setAssoc_self _ _ _
  have hc1 := hchk _ hl1
  have hst2 : (isTokenBlacklisted sha now token
      (blacklistToken sha now token expiresIn st)).2
      = blacklistToken sha now token expiresIn st := by
    rw [hc1]
  have hl2 : lookupAssoc
      (blacklistToken sha now token expiresIn
        (blacklistToken sha now token expiresIn st)).localTokenCache
      (getTokenKey sha token) = some ⟨true, now⟩ := by
    rw [hbl (blacklistToken sha now token expiresIn st)]
    exact lookupAssoc_setAssoc_self _ _ _
  have hc2 := hchk _ hl2
  refine ⟨by rw [hc1], ?_, ?_, ?_⟩
  · rw [hst2, hc2]
  · rw [hst2, hc2]
    show countKey (blacklistToken sha now token expiresIn
      (blacklistToken sha now token expiresIn st)).redis
      (getTokenKey sha token) = 1
    rw [hbl (blacklistToken sha now token expiresIn st), hbl st]
    exact countKey_setAssoc_self _ _ _
      (keysNodup_setAssoc st.redis (getTokenKey sha token) _ hKeys)
  · intro t e s he
    unfold blacklistToken
    by_cases hg : t = "" ∨ strTrim t = ""
    · rw [if_pos hg]
    · rw [if_neg hg, if_pos he]

/-- C2 witness: one concrete token blacklisted twice against an empty store,
with both checks reporting true and exactly one marker stored. -/
theorem C2_blacklist_twice_idempotent_witness :
    (isTokenBlacklisted (fun s => s) 0 "tok"
        (blacklistToken (fun s => s) 0 "tok" 100 ⟨[], []⟩)).1 = true ∧
    countKey
      (isTokenBlacklisted (fun s => s) 0 "tok"
        (blacklistToken (fun s => s) 0 "tok" 100
          (isTokenBlacklisted (fun s => s) 0 "tok"
            (blacklistToken (fun s => s) 0 "tok" 100 ⟨[], []⟩)).2)).2.redis
      (getTokenKey (fun s => s) "tok") = 1 :=
  ⟨(C2_blacklist_twice_idempotent (fun s => s) 0 100 "tok" ⟨[], []⟩
      (by decide) (by decide) (by decide) (by decide)).1,
   (C2_blacklist_twice_idempotent (fun s => s) 0 100 "tok" ⟨[], []⟩
      (by decide) (by decide) (by decide) (by decide)).2.2.1⟩

/-- Any error the role-based block produces carries status 403. -/
theorem roleCheckOf_error_status
    (opts : Option (CrudEndpointType → Option EndpointCfg))
    (action : CrudAction) (role : UserRole) (e : AppErr)
    (h : roleCheckOf opts action role = .error e) : e.status = 403 := by
  unfold roleCheckOf at h
  repeat' split at h
  all_goals cases h
  rfl

/-- C7: an ADMIN or SUPER_ADMIN caller passes checkPermission for every
action and entity; a non-admin caller attempting update or delete on an
existing entity that does not carry their id in any ownership field gets a
403 error from the ownership-aware (hasOwnership) variant. -/
theorem C7_admin_and_ownership
    (opts : Option (CrudEndpointType → Option EndpointCfg))
    (hasOwnership : Bool) (repoGet : String → Option OwnedEntity)
    (requester : Requester) (action : CrudAction) (entityId : Option String) :
    ((requester.role = some UserRole.ADMIN ∨
        requester.role = some UserRole.SUPER_ADMIN) →
      checkPermission opts hasOwnership repoGet requester action entityId
        = .ok ()) ∧
    (∀ eid entity,
      requester.role.getD UserRole.USER = UserRole.USER →
      (action = CrudAction.update ∨ action = CrudAction.delete) →
      entityId = some eid → eid ≠ "" →
      repoGet eid = some entity →
      hasOwnership = true →
      isEntityOwner entity requester = false →
      ∃ e, checkPermission opts hasOwnership repoGet requester action entityId
          = .error e ∧ e.status = 403) := by
  constructor
  · intro hrole
    unfold checkPermission
    rcases hrole with h | h <;> rw [h] <;> simp
  · intro eid entity hrole hact hei heid hget hown hnotowner
    have hownchk : ownershipCheckOf hasOwnership repoGet requester action
        entityId = .error
          ⟨"Permission denied: User does not own this entity", 403⟩ := by
      unfold ownershipCheckOf
      rw [hei]
      rw [if_pos ⟨by simpa using heid, hact⟩]
      simp only [Option.getD_some, hget]
      rw [if_pos ⟨by rw [hown], hnotowner⟩]
    unfold checkPermission
    rw [hrole]
    rw [if_neg (by simp :
      ¬(UserRole.USER = UserRole.SUPER_ADMIN ∨
        UserRole.USER = UserRole.ADMIN))]
    cases hrc : roleCheckOf opts action UserRole.USER with
    | error e =>
      exact ⟨e, rfl, roleCheckOf_error_status opts action UserRole.USER e hrc⟩
    | ok u =>
      refine ⟨⟨"Permission denied: User does not own this entity", 403⟩,
        ?_, rfl⟩
      simpa using hownchk

/-- C7 witness: an admin updates an entity they do not own without error; a
plain user attempting the same update gets a 403. -/
theorem C7_admin_and_ownership_witness :
    checkPermission none true
        (fun i => if i == "e1" then some ⟨some "other", none, none⟩ else none)
        ⟨"me", some UserRole.ADMIN⟩ CrudAction.update (some "e1")
      = .ok () ∧
    ∃ e, checkPermission none true
        (fun i => if i == "e1" then some ⟨some "other", none, none⟩ else none)
        ⟨"me", some UserRole.USER⟩ CrudAction.update (some "e1")
      = .error e ∧ e.status = 403 :=
  ⟨(C7_admin_and_ownership none true
      (fun i => if i == "e1" then some ⟨some "other", none, none⟩ else none)
      ⟨"me", some UserRole.ADMIN⟩ CrudAction.update (some "e1")).1
      (Or.inl rfl),
   (C7_admin_and_ownership none true
      (fun i => if i == "e1" then some ⟨some "other", none, none⟩ else none)
      ⟨"me", some UserRole.USER⟩ CrudAction.update (some "e1")).2
      "e1" ⟨some "other", none, none⟩ rfl (Or.inl rfl) rfl (by decide)
      (by decide) rfl (by decide)⟩

/-- C3: a password-reset token is single-use in both variants — when reset
tokens identify at most one user (they are 32 random bytes), a successful
reset clears the stored token and expiry, so a second confirmation with the
same token fails with the 400 invalid/expired-token error. -/
theorem C3_reset_token_single_use :
    (∀ (hash : String → String) (token pw1 pw2 : String) (now1 now2 : Int)
        (db db' : AuthDb),
      (∀ u1 ∈ db.users, ∀ u2 ∈ db.users,
        u1.resetToken = some token → u2.resetToken = some token →
          u1.id = u2.id) →
      resetPassword hash token pw1 now1 db = .ok db' →
      resetPassword hash token pw2 now2 db'
        = .error ⟨"Invalid or expired token", 400⟩) ∧
    (∀ (cmp : String → String → Bool)
        (salt2 hash2 salt3 hash3 token : String) (now1 now2 : Int)
        (dto1 dto2 : AttResetPasswordDto) (repo repo' : List AttUser),
      token ≠ "" →
      dto1.resetToken = some token → dto2.resetToken = some token →
      (∀ u1 ∈ repo, ∀ u2 ∈ repo,
        u1.passwordResetToken = some token →
          u2.passwordResetToken = some token → u1.id = u2.id) →
      attResetPassword cmp salt2 hash2 now1 dto1 repo = .ok repo' →
      attResetPassword cmp salt3 hash3 now2 dto2 repo'
        = .error ⟨"ErrInvalidResetToken", 400⟩) := by
  constructor
  · intro hash token pw1 pw2 now1 now2 db db' huniq hok
    unfold resetPassword at hok
    split at hok
    · cases hok
    next user heq =>
      cases hok
      have husermem : user ∈ db.users := by
        unfold findUserByResetToken at heq
        exact List.mem_of_find?_eq_some heq
      have hutok : user.resetToken = some token := by
        unfold findUserByResetToken at heq
        have hpred := List.find?_some heq
        rw [Bool.and_eq_true] at hpred
        simpa using hpred.1
      have hfind2 : findUserByResetToken token now2
          (revokeAllUserSessions user.id
            { db with
              users := db.users.map (fun u =>
                if u.id == user.id then
                  { u with
                    password := hash pw1
                    resetToken := none
                    resetTokenExpires := none }
                else u) }) = none := by
        unfold findUserByResetToken revokeAllUserSessions revokeAllUserTokens
        refine List.find?_eq_none.mpr ?_
        intro x hx
        simp only [List.mem_map] at hx
        rcases hx with ⟨u0, hu0, hfx⟩
        by_cases hid : (u0.id == user.id) = true
        · rw [if_pos hid] at hfx
          rw [← hfx]
          simp
        · rw [if_neg hid] at hfx
          rw [← hfx]
          intro hpred
          have hu0tok : u0.resetToken = some token := by
            rw [Bool.and_eq_true] at hpred
            simpa using hpred.1
          have := huniq u0 hu0 user husermem hu0tok hutok
          rw [this] at hid
          simp at hid
      unfold resetPassword
      rw [hfind2]
  · intro cmp salt2 hash2 salt3 hash3 token now1 now2 dto1 dto2 repo repo'
      hTokNe hdto1 hdto2 huniq hok
    have htruthy : jsTruthy (some token) = true := by
      simp [jsTruthy, hTokNe]
    unfold attResetPassword at hok
    rw [hdto1, if_pos htruthy] at hok
    simp only [Option.getD_some] at hok
    split at hok
    · cases hok
    next user heq =>
      have husermem : user ∈ repo := by
        unfold findByResetToken at heq
        exact List.mem_of_find?_eq_some heq
      have hutok : user.passwordResetToken = some token := by
        unfold findByResetToken at heq
        have hpred := List.find?_some heq
        simpa using hpred
      split at hok
      · cases hok
      next expiry hexp =>
        split at hok
        · cases hok
        · split at hok
          · cases hok
          · cases hok
            have hfind2 : findByResetToken
                (repo.map (fun u =>
                  if u.id == user.id then
                    { u with
                      password := hash2
                      salt := salt2
                      passwordResetToken := none
                      passwordResetExpiry := none
                      status :=
                        if u.status = UserStatus.PENDING_ACTIVATION then
                          UserStatus.ACTIVE
                        else u.status }
                  else u)) token = none := by
              unfold findByResetToken
              refine List.find?_eq_none.mpr ?_
              intro x hx
              simp only [List.mem_map] at hx
              rcases hx with ⟨u0, hu0, hfx⟩
              by_cases hid : (u0.id == user.id) = true
              · rw [if_pos hid] at hfx
                rw [← hfx]
                simp
              · rw [if_neg hid] at hfx
                rw [← hfx]
                intro hpred
                have hu0tok : u0.passwordResetToken = some token := by
                  simpa using hpred
                have := huniq u0 hu0 user husermem hu0tok hutok
                rw [this] at hid
                simp at hid
            unfold attResetPassword
            rw [hdto2, if_pos htruthy]
            simp only [Option.getD_some]
            rw [hfind2]

/-- C3 witness: one concrete user in each variant; the first confirmation
succeeds, the second with the same token fails with 400. -/
theorem C3_reset_token_single_use_witness :
    resetPassword (fun s => s) "tok" "pw2" 60
        ⟨[⟨"u1", "e", "n", "pw1", none, none⟩], [], []⟩
      = .error ⟨"Invalid or expired token", 400⟩ ∧
    attResetPassword (fun _ _ => false) "s3" "h3" 60
        ⟨some "tok", none, none, none, "pw"⟩
        [⟨"u1", "w1", "c", "emp", "h2", "s2", none, none, UserStatus.ACTIVE⟩]
      = .error ⟨"ErrInvalidResetToken", 400⟩ :=
  ⟨C3_reset_token_single_use.1 (fun s => s) "tok" "pw1" "pw2" 50 60
      ⟨[⟨"u1", "e", "n", "old", some "tok", some 100⟩], [], []⟩
      ⟨[⟨"u1", "e", "n", "pw1", none, none⟩], [], []⟩
      (by decide) rfl,
   C3_reset_token_single_use.2 (fun _ _ => false) "s2" "h2" "s3" "h3" "tok"
      50 60 ⟨some "tok", none, none, none, "pw"⟩
      ⟨some "tok", none, none, none, "pw"⟩
      [⟨"u1", "w1", "c", "emp", "old", "s1", some "tok", some 100,
        UserStatus.ACTIVE⟩]
      [⟨"u1", "w1", "c", "emp", "h2", "s2", none, none, UserStatus.ACTIVE⟩]
      (by decide) rfl rfl (by decide) rfl⟩
